import Mathlib

set_option maxRecDepth 100000

/-!
Shallow embedding of `mvg_system_core.py` (MVG v2.0 core engine):
the Intent Analyzer, Capability Assessor, Ethical Guardian, Growth
Response Designer and the MVG orchestrator's `process_request`,
together with the per-user memory model.

Strings are modelled as lists of characters (`Str`).  Python's
`str.lower()` is modelled as ASCII lowering, `re.search` over the
alternation-only patterns of the source as "contains one of these
substrings", and the two two-part patterns (`direct_solution`,
`lazy_seeking`, shape `(w1|...)\s+(w2|...)`) by an explicit searcher
that looks for an alternative of the first group followed by one or
more whitespace characters and an alternative of the second group.
Timestamps (`datetime.now()`) are modelled by an explicit `now : Nat`
parameter; Python dicts that the core only iterates in insertion
order (`learning_progress`, `topic_expertise`) as association lists.
-/

namespace MVG

/-- Strings of the model: lists of characters. -/
abbrev Str := List Char

/-- Turn a Lean string literal into a model string. -/
def lit (s : String) : Str := s.data

/-- The apostrophe character (spliced into literals). -/
def apos : Char := Char.ofNat 39

/-- ASCII lowering of one character, modelling Python `str.lower()`
on the character sets the source's patterns use. -/
def asciiLower (c : Char) : Char :=
  if 'A' ≤ c ∧ c ≤ 'Z' then Char.ofNat (c.toNat + 32) else c

/-- Model of Python `str.lower()`. -/
def lowerStr (s : Str) : Str := s.map asciiLower

/-- Whitespace characters, modelling `\s` of Python regular
expressions on ASCII text. -/
def wsChar (c : Char) : Bool :=
  c = ' ' || c = '\t' || c = '\n' || c = '\x0d' || c = '\x0b' || c = '\x0c'

/-- `needle` occurs as a contiguous substring of `hay`
(Python `needle in hay`, and `re.search` of a literal). -/
def containsSub (needle : Str) : Str → Bool
  | [] => needle.isPrefixOf []
  | c :: t => needle.isPrefixOf (c :: t) || containsSub needle t

/-- `re.search` of an alternation of literals `(a|b|...)`:
some alternative occurs as a substring. -/
def containsAny (alts : List Str) (hay : Str) : Bool :=
  alts.any (fun a => containsSub a hay)

/-- After at least one whitespace character has been consumed:
either some alternative of the second group matches right here, or
one more whitespace character is consumed (regex backtracking
over `\s+`). -/
def wsThenAlt (alts : List Str) : Str → Bool
  | [] => alts.any (fun w => w.isPrefixOf ([] : Str))
  | c :: t => alts.any (fun w => w.isPrefixOf (c :: t)) || (wsChar c && wsThenAlt alts t)

/-- Match of `(a1|...)\s+(a2|...)` anchored at the start of `h`. -/
def twoPartHere (a1 a2 : List Str) (h : Str) : Bool :=
  a1.any (fun w =>
    w.isPrefixOf h &&
      (match h.drop w.length with
       | [] => false
       | c :: t => wsChar c && wsThenAlt a2 t))

/-- `re.search` of `(a1|...)\s+(a2|...)`: the anchored match
succeeds at some position of `h`. -/
def twoPartSearch (a1 a2 : List Str) : Str → Bool
  | [] => twoPartHere a1 a2 []
  | c :: t => twoPartHere a1 a2 (c :: t) || twoPartSearch a1 a2 t

/-- Python `l[-n:]`: the last at most `n` elements. -/
def lastN (n : Nat) (l : List α) : List α := l.drop (l.length - n)

/-- Python `sep.join(parts)`. -/
def joinSep (sep : Str) : List Str → Str
  | [] => []
  | [x] => x
  | x :: y :: t => x ++ sep ++ joinSep sep (y :: t)

/-- Number of whitespace-separated words, `len(s.split())`. -/
def wordCount (s : Str) : Nat :=
  ((s.splitOnP (fun c => wsChar c)).filter (fun w => w ≠ [])).length

/-- Python `s.count("?")` for the one-character needle `"?"`. -/
def countChar (c : Char) (s : Str) : Nat := s.countP (fun d => d = c)

/-- Python `s.strip()`. -/
def stripStr (s : Str) : Str :=
  ((s.dropWhile (fun c => wsChar c)).reverse.dropWhile (fun c => wsChar c)).reverse

/-- Decimal rendering of a natural number (Python `str(n)`). -/
def natToStr (n : Nat) : Str := Nat.toDigits 10 n

/-- Decimal rendering of an integer (Python `str(n)`). -/
def intToStr (n : Int) : Str :=
  if n < 0 then '-' :: natToStr n.natAbs else natToStr n.natAbs

/-- Does the string contain an ASCII uppercase letter? -/
def hasUpper (s : Str) : Bool := s.any (fun c => 'A' ≤ c && c ≤ 'Z')

-- ═══════════════════════════════════════════════════════════════
-- PART 1: DATA STRUCTURES
-- ═══════════════════════════════════════════════════════════════

/-- `CapabilityLevel` enumeration of the source. -/
inductive CapabilityLevel where
  | BEGINNER
  | INTERMEDIATE
  | ADVANCED
deriving DecidableEq, Repr

/-- `CapabilityLevel.value`: the string payload of the enum. -/
def CapabilityLevel.value : CapabilityLevel → Str
  | .BEGINNER => lit "beginner"
  | .INTERMEDIATE => lit "intermediate"
  | .ADVANCED => lit "advanced"

/-- `Intent` dataclass. -/
structure Intent where
  surface_request : Str
  deep_need : Str
  underlying_motivation : Str
  ethical_flags : List Str
  growth_opportunity : Str
deriving DecidableEq, Repr

/-- `CapabilityAssessment` dataclass. -/
structure CapabilityAssessment where
  level : CapabilityLevel
  score : Int
  strengths : List Str
  weaknesses : List Str
  evidence : Str
deriving DecidableEq, Repr

/-- `EthicalVerdict` dataclass. -/
structure EthicalVerdict where
  is_harmful : Bool
  is_manipulative : Bool
  creates_dependency : Bool
  violates_dignity : Bool
  concerns : List Str
  should_proceed : Bool
  redirect_suggestion : Option Str := none
deriving DecidableEq, Repr

/-- `GrowthResponse` dataclass. -/
structure GrowthResponse where
  response_text : Str
  reasoning_log : Str
  capability_addressed : Str
  expected_outcome : Str
  follow_up_suggestions : List Str
  independence_score_impact : Str
deriving DecidableEq, Repr

/-- One record of `UserMemory.conversation_context`. -/
structure ConversationEntry where
  query : Str
  response : Str
  capability_level : Str
  capability_score : Int
  timestamp : Nat
deriving DecidableEq, Repr

/-- `UserMemory` dataclass.  `last_interaction` and the context
timestamps hold abstract clock values. -/
structure UserMemory where
  user_id : Str
  interaction_count : Nat := 0
  request_history : List Str := []
  capability_trend : List Int := []
  topic_expertise : List (Str × Int) := []
  learning_progress : List (Str × Str) := []
  last_interaction : Option Nat := none
  conversation_context : List ConversationEntry := []
deriving DecidableEq, Repr

/-- `UserMemory(user_id=uid)`: the fresh memory that
`get_or_create_user_memory` builds for an unseen identifier. -/
def freshMemory (uid : Str) : UserMemory := { user_id := uid }

-- ═══════════════════════════════════════════════════════════════
-- PART 2: INTENT ANALYZER
-- ═══════════════════════════════════════════════════════════════

namespace IntentAnalyzer

/-- First group of the `direct_solution` pattern
`(write|do|solve|complete|code|make|build|create)\s+(my|the|this|your)`. -/
def direct_solution_1 : List Str :=
  [lit "write", lit "do", lit "solve", lit "complete", lit "code",
   lit "make", lit "build", lit "create"]

/-- Second group of the `direct_solution` pattern. -/
def direct_solution_2 : List Str :=
  [lit "my", lit "the", lit "this", lit "your"]

/-- First group of the `lazy_seeking` pattern
`(just|quickly|fast|easy|simple|just)\s+(give|show|tell)`. -/
def lazy_seeking_1 : List Str :=
  [lit "just", lit "quickly", lit "fast", lit "easy", lit "simple", lit "just"]

/-- Second group of the `lazy_seeking` pattern. -/
def lazy_seeking_2 : List Str :=
  [lit "give", lit "show", lit "tell"]

/-- `genuine_learning` alternation. -/
def genuine_learning : List Str :=
  [lit "how", lit "why", lit "understand", lit "learn", lit "explain",
   lit "teach", lit "work", lit "process"]

/-- `collaboration` alternation. -/
def collaboration : List Str :=
  [lit "together", lit "help me", lit "guide", lit "feedback",
   lit "review", lit "improve"]

/-- `verification` alternation. -/
def verification : List Str :=
  [lit "check", lit "verify", lit "right", lit "correct",
   lit "validate", lit "confirm"]

/-- `advanced_exploration` alternation. -/
def advanced_exploration : List Str :=
  [lit "alternative", lit "optimize", lit "best", lit "elegant",
   lit "edge", lit "consider", lit "deeper"]

/-- Search of the compiled `direct_solution` pattern. -/
def matchDirectSolution (s : Str) : Bool :=
  twoPartSearch direct_solution_1 direct_solution_2 s

/-- Search of the compiled `lazy_seeking` pattern. -/
def matchLazySeeking (s : Str) : Bool :=
  twoPartSearch lazy_seeking_1 lazy_seeking_2 s

/-- `IntentAnalyzer._extract_surface_request`. -/
def extract_surface_request (query : Str) : Str :=
  let query_lower := lowerStr query
  if matchDirectSolution query_lower then
    if matchLazySeeking query_lower then lit "Shortcut-seeking complete solution"
    else lit "Request for complete solution"
  else if containsAny collaboration query_lower then
    lit "Collaborative learning request"
  else if containsAny verification query_lower then
    lit "Verification/validation request"
  else if containsAny advanced_exploration query_lower then
    lit "Advanced exploration request"
  else if containsAny genuine_learning query_lower then
    lit "Request for understanding/learning"
  else lit "General inquiry"

/-- The `for topic in topics` loop of `_infer_deep_need`: the first
topic of `learning_progress` (insertion order) whose lowered name is
a substring of the lowered query. -/
def findTopic (topics : List (Str × Str)) (query_lower : Str) : Option Str :=
  match topics with
  | [] => none
  | (topic, _) :: rest =>
    if containsSub (lowerStr topic) query_lower then some topic
    else findTopic rest query_lower

/-- `IntentAnalyzer._infer_deep_need`.  (The `surface` parameter of
the source is unused by its body; it is kept for fidelity.) -/
def infer_deep_need (query : Str) (surface : Str) (memory : Option UserMemory) : Str :=
  let _ := surface
  let query_lower := lowerStr query
  match (match memory with
         | some m => if m.learning_progress ≠ [] then findTopic m.learning_progress query_lower else none
         | none => none) with
  | some topic => lit "Mastery in " ++ topic
  | none =>
    if (containsSub (lit "homework") query_lower || containsSub (lit "assignment") query_lower
          || containsSub (lit "exam") query_lower)
        && (containsSub (lit "write") query_lower || containsSub (lit "solve") query_lower) then
      lit "Understanding the material deeply"
    else if containsAny [lit "business", lit "startup", lit "company", lit "career"] query_lower then
      lit "Strategic thinking and confidence"
    else if containsAny [lit "life", lit "decision", lit "should i", lit "advice"] query_lower then
      lit "Clarity, wisdom, and self-understanding"
    else if containsAny [lit "algorithm", lit "code", lit "debug", lit "architecture"] query_lower then
      lit "Problem-solving mastery"
    else lit "Knowledge or skill development"

/-- `urgency_patterns["Time pressure"]`. -/
def time_pressure_alts : List Str :=
  [lit "urgent", lit "deadline", lit "tomorrow", lit "tonight", lit "asap",
   lit "quickly", lit "fast", lit "hurry", lit "due"]

/-- `urgency_patterns["Fear/Anxiety"]`. -/
def fear_anxiety_alts : List Str :=
  [lit "afraid", lit "worried", lit "scared", lit "don\x27t know", lit "lost",
   lit "confused", lit "stuck", lit "help", lit "desperate"]

/-- `urgency_patterns["Laziness seeking"]`. -/
def laziness_alts : List Str :=
  [lit "just give", lit "simply", lit "quick", lit "easy", lit "shortcut",
   lit "without", lit "don\x27t want to"]

/-- `urgency_patterns["Genuine curiosity"]`. -/
def curiosity_alts : List Str :=
  [lit "why", lit "how", lit "curious", lit "wonder", lit "interested",
   lit "want to understand"]

/-- `IntentAnalyzer._analyze_motivation`.  (The `deep_need` parameter
of the source is unused by its body; kept for fidelity.)  The dict of
urgency patterns is scanned in insertion order and the first match
returns its mapped label. -/
def analyze_motivation (query : Str) (deep_need : Str) : Str :=
  let _ := deep_need
  let query_lower := lowerStr query
  if containsAny time_pressure_alts query_lower then
    lit "Time pressure / Procrastination"
  else if containsAny fear_anxiety_alts query_lower then
    lit "Fear of failure / Lack of confidence"
  else if containsAny laziness_alts query_lower then
    lit "Convenience seeking / Avoiding effort"
  else if containsAny curiosity_alts query_lower then
    lit "Intrinsic motivation / Growth mindset"
  else lit "Desire for growth and improvement"

/-- `deception_patterns`. -/
def deception_alts : List Str :=
  [lit "fake", lit "pretend", lit "trick", lit "manipulate", lit "deceive",
   lit "cheat", lit "fraud", lit "dishonest"]

/-- `harm_patterns`. -/
def harm_alts : List Str :=
  [lit "hurt", lit "damage", lit "attack", lit "harm", lit "destroy",
   lit "sabotage", lit "harmful"]

/-- `bias_patterns`. -/
def bias_alts : List Str :=
  [lit "racism", lit "sexism", lit "discriminat", lit "bigot", lit "hate",
   lit "prejudice", lit "stereotype"]

/-- `pressure_patterns`. -/
def pressure_alts : List Str :=
  [lit "must do", lit "force", lit "pressure", lit "coerce",
   lit "blackmail", lit "threaten"]

/-- `IntentAnalyzer._detect_ethical_flags`: flags accumulate in the
source's append order. -/
def detect_ethical_flags (query : Str) (surface : Str) (memory : Option UserMemory) : List Str :=
  let query_lower := lowerStr query
  (if containsSub (lit "complete solution") (lowerStr surface)
      || containsSub (lit "shortcut") (lowerStr surface) then
    [lit "potential_dependency_creation"] else [])
  ++ (if containsAny deception_alts query_lower then [lit "deception_intent"] else [])
  ++ (if containsAny harm_alts query_lower then [lit "potential_harm"] else [])
  ++ (if containsAny bias_alts query_lower then [lit "bias_or_discrimination"] else [])
  ++ (if containsAny pressure_alts query_lower then [lit "coercion_pressure"] else [])
  ++ (if (match memory with
          | some m =>
            m.request_history.length > 0
              && (lastN 3 m.request_history).contains query_lower
          | none => false) then
        [lit "repetitive_dependency"] else [])

/-- `IntentAnalyzer._identify_growth_opportunity`. -/
def identify_growth_opportunity (surface : Str) (deep_need : Str)
    (ethical_flags : List Str) : Str :=
  let _ := surface
  if ethical_flags.contains (lit "potential_dependency_creation") then
    lit "Transform complete solution request into guided learning"
  else if deep_need = lit "Confidence and structured thinking" then
    lit "Build confidence through guided discovery"
  else if deep_need = lit "Clarity and self-understanding" then
    lit "Facilitate self-reflection and insight"
  else lit "Develop problem-solving capability"

/-- `IntentAnalyzer.analyze`. -/
def analyze (user_query : Str) (memory : Option UserMemory) : Intent :=
  let surface := extract_surface_request user_query
  let deep_need := infer_deep_need user_query surface memory
  let motivation := analyze_motivation user_query deep_need
  let ethical_flags := detect_ethical_flags user_query surface memory
  let growth_opp := identify_growth_opportunity surface deep_need ethical_flags
  { surface_request := surface
    deep_need := deep_need
    underlying_motivation := motivation
    ethical_flags := ethical_flags
    growth_opportunity := growth_opp }

end IntentAnalyzer

-- ═══════════════════════════════════════════════════════════════
-- PART 3: CAPABILITY ASSESSOR
-- ═══════════════════════════════════════════════════════════════

namespace CapabilityAssessor

/-- `CapabilityAssessor._assess_reasoning_quality`: score 0-30. -/
def assess_reasoning_quality (query : Str) : Int :=
  let query_lower := lowerStr query
  let score : Int := 10
  let score := if containsAny
      [lit "because", lit "however", lit "although", lit "consider",
       lit "analyze", lit "depends on", lit "factors"] query_lower
    then score + 15 else score
  let score := if containsAny
      [lit "on the one hand", lit "alternatively", lit "versus",
       lit "compared to", lit "trade-off"] query_lower
    then score + 5 else score
  let score := if containsAny
      [lit "don\x27t understand", lit "confused", lit "lost", lit "no idea"] query_lower
    then score - 5 else score
  max 0 (min 30 score)

/-- `CapabilityAssessor._assess_self_awareness`: score 0-25. -/
def assess_self_awareness (query : Str) : Int :=
  let query_lower := lowerStr query
  let score : Int := 10
  let score := if containsAny
      [lit "i don\x27t", lit "i can\x27t", lit "i\x27m weak",
       lit "i\x27m struggling", lit "i need help"] query_lower
    then score + 10 else score
  let score := if containsAny
      [lit "tried", lit "attempted", lit "explored", lit "tested",
       lit "experimented"] query_lower
    then score + 5 else score
  let score := if containsAny
      [lit "how do i learn", lit "my approach", lit "my method",
       lit "how can i"] query_lower
    then score + 5 else score
  let score := if containsAny
      [lit "obviously", lit "clearly", lit "simple", lit "easy",
       lit "anyone knows"] query_lower
    then score - 10 else score
  max 0 (min 25 score)

/-- `CapabilityAssessor._assess_effort_shown`: score 0-25. -/
def assess_effort_shown (query : Str) : Int :=
  let query_lower := lowerStr query
  let score : Int := 8
  let score := if containsAny
      [lit "i tried", lit "attempted", lit "worked on", lit "experimented",
       lit "tested"] query_lower
    then score + 12 else score
  let score := if wordCount query > 40 then score + 5 else score
  let score := if countChar '?' query > 1 then score + 5 else score
  let score := if containsAny
      [lit "just", lit "quick", lit "fast", lit "simple",
       lit "without effort"] query_lower
    then score - 8 else score
  max 0 (min 25 score)

/-- `CapabilityAssessor._analyze_learning_trajectory`: score 0-20
from the last five entries of the capability trend. -/
def analyze_learning_trajectory (memory : Option UserMemory) : Int :=
  match memory with
  | none => 10
  | some m =>
    match lastN 5 m.capability_trend with
    | [] => 10
    | [_] => 10
    | a :: b :: t =>
      let l := (b :: t).getLastD a
      if l > a then 10 + min 10 ((l - a) / 5)
      else if l < a then max 0 (10 - 5)
      else 10

/-- `CapabilityAssessor._calculate_capability_score`. -/
def calculate_capability_score (reasoning_quality self_awareness effort trajectory : Int) : Int :=
  reasoning_quality + self_awareness + effort + trajectory

/-- The level branching inside `CapabilityAssessor.assess`. -/
def levelOf (score : Int) : CapabilityLevel :=
  if score < 30 then .BEGINNER
  else if score < 70 then .INTERMEDIATE
  else .ADVANCED

/-- `COMPETENCY_KEYWORDS`, in dict insertion order. -/
def COMPETENCY_KEYWORDS : List (Str × List Str) :=
  [(lit "analysis",
    [lit "analyze", lit "examine", lit "breakdown", lit "decompose", lit "understand why"]),
   (lit "application",
    [lit "implement", lit "apply", lit "use", lit "create", lit "build"]),
   (lit "synthesis",
    [lit "combine", lit "integrate", lit "design", lit "solve", lit "optimize"]),
   (lit "metacognition",
    [lit "how do i learn", lit "my approach", lit "my method", lit "i\x27ve tried"])]

/-- The competency loop of `_identify_competencies`: the strength
labels appended for each matched keyword category, in order.
(The `application` category has no associated label.) -/
def competencyStrengths (query_lower : Str) : List Str :=
  (COMPETENCY_KEYWORDS.filterMap (fun kv =>
    if (kv.2).any (fun kw => containsSub kw query_lower) then
      if kv.1 = lit "analysis" then some (lit "Strong analytical thinking")
      else if kv.1 = lit "synthesis" then some (lit "Can integrate and synthesize ideas")
      else if kv.1 = lit "metacognition" then some (lit "Self-aware learner")
      else none
    else none))

/-- The `learning_progress` loop of `_identify_competencies`:
`(extra strengths, extra weaknesses)` appended per matching topic. -/
def progressLabels (progress : List (Str × Str)) (query_lower : Str) : List Str × List Str :=
  match progress with
  | [] => ([], [])
  | (topic, level) :: rest =>
    let (s, w) := progressLabels rest query_lower
    if containsSub (lowerStr topic) query_lower then
      if level = lit "beginner" then
        (s, (lit "Building foundational skills in " ++ topic) :: w)
      else if level = lit "improving" then
        ((lit "Making progress in " ++ topic) :: s, w)
      else (s, w)
    else (s, w)

/-- `CapabilityAssessor._identify_competencies`. -/
def identify_competencies (query : Str) (score : Int) (memory : Option UserMemory) :
    List Str × List Str :=
  let query_lower := lowerStr query
  let strengths := competencyStrengths query_lower
  let weaknesses : List Str := []
  let (ps, pw) := match memory with
    | some m => if m.learning_progress ≠ [] then progressLabels m.learning_progress query_lower else ([], [])
    | none => ([], [])
  let strengths := strengths ++ ps
  let weaknesses := weaknesses ++ pw
  if score < 30 then
    (strengths, weaknesses ++ [lit "Needs foundational knowledge and practice"])
  else if score > 70 then
    (strengths ++ [lit "Demonstrates advanced understanding"], weaknesses)
  else
    (strengths ++ [lit "Has solid foundational knowledge"],
     weaknesses ++ [lit "Can deepen understanding of nuanced concepts"])

/-- `CapabilityAssessor._generate_comprehensive_evidence`. -/
def generate_comprehensive_evidence (reasoning awareness effort score : Int) : Str :=
  lit "Assessment based on: reasoning quality (" ++ intToStr reasoning
    ++ lit "/30), self-awareness (" ++ intToStr awareness
    ++ lit "/25), effort shown (" ++ intToStr effort
    ++ lit "/25), resulting in overall capability score of "
    ++ intToStr score ++ lit "/100"

/-- `CapabilityAssessor.assess`. -/
def assess (user_query : Str) (memory : Option UserMemory) : CapabilityAssessment :=
  let reasoning_quality := assess_reasoning_quality user_query
  let self_awareness := assess_self_awareness user_query
  let effort_and_thought := assess_effort_shown user_query
  let learning_trajectory := analyze_learning_trajectory memory
  let score := calculate_capability_score reasoning_quality self_awareness
    effort_and_thought learning_trajectory
  let level := levelOf score
  let (strengths, weaknesses) := identify_competencies user_query score memory
  let evidence := generate_comprehensive_evidence reasoning_quality self_awareness
    effort_and_thought score
  { level := level
    score := score
    strengths := strengths
    weaknesses := weaknesses
    evidence := evidence }

end CapabilityAssessor

-- ═══════════════════════════════════════════════════════════════
-- PART 4: ETHICAL GUARDIAN
-- ═══════════════════════════════════════════════════════════════

namespace EthicalGuardian

/-- `EthicalGuardian._check_harm`. -/
def check_harm (intent : Intent) : Bool :=
  intent.ethical_flags.contains (lit "potential_harm")

/-- `EthicalGuardian._check_manipulation`. -/
def check_manipulation (intent : Intent) : Bool :=
  intent.ethical_flags.contains (lit "deception_intent")

/-- The `sum(1 for r in memory.request_history if "shortcut" in
r.lower() or "write" in r.lower())` count of `_check_dependency`. -/
def shortcutCount (history : List Str) : Nat :=
  (history.filter (fun r =>
    containsSub (lit "shortcut") (lowerStr r)
      || containsSub (lit "write") (lowerStr r))).length

/-- `EthicalGuardian._check_dependency`.  The source compares the
shortcut count against `interaction_count * 0.6` (an IEEE double);
the model uses the exact rational 3/5.  The two comparisons agree
except at integer products on the 60% boundary, which no claim of
this development exercises. -/
def check_dependency (intent : Intent) (memory : Option UserMemory) : Bool :=
  let has_dependency_flag := intent.ethical_flags.contains (lit "potential_dependency_creation")
  if intent.ethical_flags.contains (lit "repetitive_dependency") then true
  else if (match memory with
           | some m =>
             m.interaction_count > 10
               && 5 * shortcutCount m.request_history > 3 * m.interaction_count
           | none => false) then true
  else has_dependency_flag

/-- `EthicalGuardian._check_dignity`. -/
def check_dignity (intent : Intent) : Bool :=
  intent.ethical_flags.contains (lit "coercion_pressure")
    || intent.ethical_flags.contains (lit "violation_dignity")

/-- `EthicalGuardian._check_bias`. -/
def check_bias (intent : Intent) : Bool :=
  intent.ethical_flags.contains (lit "bias_or_discrimination")

/-- `EthicalGuardian._generate_redirect`. -/
def generate_redirect (intent : Intent) (concerns : List Str) : Str :=
  let _ := intent
  if concerns.contains (lit "Direct harm potential") then
    lit "I cannot assist with this request as it may cause harm. However, I\x27d like to help you achieve your underlying goal in a way that benefits everyone involved. What\x27s the positive outcome you\x27re trying to reach?"
  else if concerns.contains (lit "Manipulation or deception") then
    lit "I can\x27t help with deception, but I absolutely can help you communicate what you need more effectively and honestly. Authentic communication actually works better. What\x27s really going on here?"
  else if concerns.contains (lit "Creates unhealthy dependency") then
    lit "I notice you might be building a pattern of asking for solutions rather than learning. That would actually make you weaker, not stronger. Let me help you become independent and capable instead. Ready?"
  else if concerns.contains (lit "Violates human dignity") then
    lit "This request involves pressure or coercion, which I can\x27t support. But I can help you find a way to get what you need that respects everyone\x27s dignity and autonomy. Let\x27s explore that together."
  else if concerns.contains (lit "Contains harmful bias or discrimination") then
    lit "I notice this request involves stereotyping or discrimination. Instead, let me help you see the fuller picture and connect with the real humanity in this situation. That\x27s where real solutions come from."
  else
    lit "I cannot fulfill this request as stated, but I can help you find a better path forward."

/-- `EthicalGuardian.evaluate`. -/
def evaluate (intent : Intent) (memory : Option UserMemory) : EthicalVerdict :=
  let harm_check := check_harm intent
  let manipulation_check := check_manipulation intent
  let dependency_check := check_dependency intent memory
  let dignity_check := check_dignity intent
  let bias_check := check_bias intent
  let concerns :=
    (if harm_check then [lit "Direct harm potential"] else [])
    ++ (if manipulation_check then [lit "Manipulation or deception"] else [])
    ++ (if dependency_check then [lit "Creates unhealthy dependency"] else [])
    ++ (if dignity_check then [lit "Violates human dignity"] else [])
    ++ (if bias_check then [lit "Contains harmful bias or discrimination"] else [])
  let must_stop := harm_check || manipulation_check || dignity_check || bias_check
  let should_proceed := !must_stop
  let redirect := if !should_proceed then some (generate_redirect intent concerns) else none
  { is_harmful := harm_check
    is_manipulative := manipulation_check
    creates_dependency := dependency_check
    violates_dignity := dignity_check
    concerns := concerns
    should_proceed := should_proceed
    redirect_suggestion := redirect }

end EthicalGuardian

-- ═══════════════════════════════════════════════════════════════
-- PART 5: GROWTH RESPONSE DESIGNER
-- ═══════════════════════════════════════════════════════════════

namespace GrowthResponseDesigner

/-- `BEGINNER_TEMPLATES` lookup:
`BEGINNER_TEMPLATES.get(tone, BEGINNER_TEMPLATES.get("genuine", ...))`.
The dict has keys fear, laziness, genuine, so the inner `get`
always finds the genuine entry. -/
def beginnerTemplate (tone : Str) : Str :=
  if tone = lit "fear" then
    lit "I can see you\x27re worried about this, and that\x27s completely natural. Let\x27s break this down into tiny, manageable pieces so you can build real confidence."
  else if tone = lit "laziness" then
    lit "I get it - deadlines are stressful. But here\x27s the thing: doing it yourself, even slowly, will actually make you feel way better than taking a shortcut."
  else
    lit "Great question! You\x27re asking the right things. Let me help you build a real foundation here."

/-- `INTERMEDIATE_TEMPLATES` lookup:
`INTERMEDIATE_TEMPLATES.get(tone, INTERMEDIATE_TEMPLATES["genuine"])`. -/
def intermediateTemplate (tone : Str) : Str :=
  if tone = lit "fear" then
    lit "You\x27ve got more capability here than you think. Let me show you how to find the solution yourself."
  else if tone = lit "laziness" then
    lit "You\x27re better than shortcuts. Let\x27s find an efficient way that still builds your skills."
  else
    lit "Excellent thinking. You\x27re ready to develop mastery. Let me challenge you appropriately."

/-- `GrowthResponseDesigner._extract_motivation_tone`. -/
def extract_motivation_tone (motivation : Str) : Str :=
  let motivation_lower := lowerStr motivation
  if containsSub (lit "fear") motivation_lower
      || containsSub (lit "anxiety") motivation_lower then lit "fear"
  else if containsSub (lit "lazy") motivation_lower
      || containsSub (lit "shortcut") motivation_lower
      || containsSub (lit "convenience") motivation_lower then lit "laziness"
  else if containsSub (lit "pressure") motivation_lower
      || containsSub (lit "time") motivation_lower then lit "urgency"
  else if containsSub (lit "growth") motivation_lower
      || containsSub (lit "improvement") motivation_lower then lit "genuine"
  else lit "neutral"

/-- `GrowthResponseDesigner._create_redirect_response`.  Python
`verdict.redirect_suggestion or "I need to pause here."` falls back
when the suggestion is `None` or the empty string. -/
def create_redirect_response (intent : Intent) (verdict : EthicalVerdict) : GrowthResponse :=
  let _ := intent
  { response_text :=
      match verdict.redirect_suggestion with
      | some r => if r = [] then lit "I need to pause here." else r
      | none => lit "I need to pause here."
    reasoning_log :=
      lit "Ethical concerns detected: " ++ joinSep (lit ", ") verdict.concerns
        ++ lit ". Providing ethical redirect to help user find better path."
    capability_addressed := lit "Ethical decision-making and values"
    expected_outcome := lit "User reflects on their approach and finds ethical alternative"
    follow_up_suggestions :=
      [lit "Tell me more about what you\x27re trying to achieve",
       lit "What would a version of this that you\x27d be proud of look like?",
       lit "How can I help you reach your goal ethically?"]
    independence_score_impact := lit "maintains (and strengthens values)" }

/-- `GrowthResponseDesigner._design_for_beginner`. -/
def design_for_beginner (intent : Intent) (capability : CapabilityAssessment)
    (motivation_tone : Str) (memory : Option UserMemory) : GrowthResponse :=
  let _ := memory
  let template := beginnerTemplate motivation_tone
  let response_text :=
    template
    ++ lit "\n\n**Let\x27s see your actual situation:**\n"
    ++ (if capability.strengths ≠ [] then joinSep (lit ", ") capability.strengths
        else lit "You\x27re taking the initiative to learn")
    ++ lit "\n\n**What we need to work on together:**\n"
    ++ (match capability.weaknesses with
        | w :: _ => w
        | [] => lit "Building core understanding")
    ++ lit "\n\n**Here\x27s our game plan:**\n\n"
    ++ lit "1. **Concept Building** - I\x27ll explain the key ideas simply\n"
    ++ lit "2. **Example Walk-Through** - We\x27ll work through a real example together  \n"
    ++ lit "3. **Your Turn** - You\x27ll try something similar with me coaching\n"
    ++ lit "4. **Reflection** - We\x27ll review what you learned\n\n"
    ++ lit "This way, you won\x27t just solve this problem - you\x27ll be able to handle similar ones on your own.\n\n"
    ++ lit "**Ready?** What\x27s the part that confuses you most?\n"
  { response_text := stripStr response_text
    reasoning_log :=
      lit "Beginner level (" ++ intToStr capability.score
        ++ lit "/100). Motivation: " ++ motivation_tone
        ++ lit ". Using foundational teaching with " ++ motivation_tone
        ++ lit "-aware approach. Growth opportunity: " ++ intent.growth_opportunity
    capability_addressed :=
      (match capability.weaknesses with
       | w :: _ => w
       | [] => lit "Core foundations")
    expected_outcome := lit "User gains real understanding + confidence to solve similar problems"
    follow_up_suggestions :=
      [lit "Show me your attempt after my explanation",
       lit "Ask about any confusing parts",
       lit "Try a similar problem to test yourself"]
    independence_score_impact := lit "increases significantly" }

/-- `GrowthResponseDesigner._design_for_intermediate`. -/
def design_for_intermediate (intent : Intent) (capability : CapabilityAssessment)
    (motivation_tone : Str) (memory : Option UserMemory) : GrowthResponse :=
  let _ := intent
  let _ := memory
  let template := intermediateTemplate motivation_tone
  let response_text :=
    template
    ++ lit "\n\n**I notice:** "
    ++ (match capability.strengths with
        | s :: _ => s
        | [] => lit "You have solid foundational knowledge")
    ++ lit "\n\n**Let\x27s think strategically:**\n\n"
    ++ lit "1. **Core Question** - What\x27s the real challenge here? (Not just the surface)\n"
    ++ lit "2. **Your Approach** - What have you tried? What approaches could work?\n"
    ++ lit "3. **Testing** - How would you verify if your solution is right?\n"
    ++ lit "4. **Refinement** - What would make it better/more elegant?\n\n"
    ++ lit "**Your task:**\n"
    ++ lit "- Work through these questions\n"
    ++ lit "- Share your reasoning with me\n"
    ++ lit "- We\x27ll iterate until you\x27ve got it solid\n\n"
    ++ lit "**Why this way?** You have the skills. You just need to organize your thinking at a deeper level. That\x27s how you move from competent to confident.\n\n"
    ++ lit "What insights do you have so far?\n"
  { response_text := stripStr response_text
    reasoning_log :=
      lit "Intermediate level (" ++ intToStr capability.score
        ++ lit "/100). Motivation: " ++ motivation_tone
        ++ lit ". Using strategic guidance + reflection prompts. Goal: Develop independent problem-solving confidence."
    capability_addressed := lit "Strategic thinking and problem-solving methodology"
    expected_outcome := lit "User develops deeper understanding and structured approach"
    follow_up_suggestions :=
      [lit "Share your approach and reasoning",
       lit "Ask for feedback on your thinking",
       lit "Explore alternative solutions",
       lit "Build toward mastery"]
    independence_score_impact := lit "increases significantly" }

/-- `GrowthResponseDesigner._design_for_advanced`. -/
def design_for_advanced (intent : Intent) (capability : CapabilityAssessment)
    (motivation_tone : Str) (memory : Option UserMemory) : GrowthResponse :=
  let _ := memory
  let template :=
    if containsSub (lit "verify") (lowerStr intent.surface_request) then
      lit "Your analysis looks thoughtful. Let\x27s stress-test it."
    else if containsSub (lit "optim") (lowerStr intent.surface_request)
        || containsSub (lit "better") (lowerStr intent.surface_request) then
      lit "You understand the basics well. Now let\x27s pursue elegance."
    else
      lit "You\x27re at a level where the real growth comes from wrestling with complexity."
  let response_text :=
    template
    ++ lit "\n\n**Beyond the obvious:**\n\n"
    ++ lit "1. **Assumptions** - What are you assuming? Why? What if they\x27re wrong?\n"
    ++ lit "2. **Edge Cases** - What breaks your solution? How would you handle those?\n"
    ++ lit "3. **Trade-offs** - What\x27s the cost of your approach? Any alternatives?\n"
    ++ lit "4. **Deeper Why** - Why does this matter? What\x27s the principle here?\n"
    ++ lit "5. **Mastery** - What would an expert do? How would they think about this?\n\n"
    ++ lit "**Challenge yourself with:**\n"
    ++ lit "- Can you find three different valid approaches?\n"
    ++ lit "- Which is most elegant and why?\n"
    ++ lit "- How would you explain this to someone very smart but in a different field?\n"
    ++ lit "- What have you learned that applies beyond this specific problem?\n\n"
    ++ lit "This is where real mastery comes from - not from having answers, but from understanding the space deeply enough to generate excellent solutions.\n\n"
    ++ lit "What\x27s your thinking so far?\n"
  { response_text := stripStr response_text
    reasoning_log :=
      lit "Advanced level (" ++ intToStr capability.score
        ++ lit "/100). Motivation: " ++ motivation_tone
        ++ lit ". Using Socratic method to deepen critical thinking. Goal: Move toward independent mastery and intellectual leadership."
    capability_addressed := lit "Advanced problem-solving, systems thinking, and intellectual independence"
    expected_outcome := lit "User achieves deeper insight, explores multiple perspectives, develops mastery"
    follow_up_suggestions :=
      [lit "Explore multiple solution paths",
       lit "Challenge your own assumptions",
       lit "Seek elegant and optimal solutions",
       lit "Build toward intellectual leadership in this area"]
    independence_score_impact := lit "increases (approaching and building beyond full independence)" }

/-- `GrowthResponseDesigner.create`.  The in-place mutation of the
(optional) memory is modelled by returning the updated memory next
to the response.  `now` models `datetime.now()`. -/
def create (intent : Intent) (capability : CapabilityAssessment)
    (ethical_verdict : EthicalVerdict) (memory : Option UserMemory) (now : Nat) :
    GrowthResponse × Option UserMemory :=
  if !ethical_verdict.should_proceed then
    (create_redirect_response intent ethical_verdict, memory)
  else
    let motivation_tone := extract_motivation_tone intent.underlying_motivation
    let response :=
      match capability.level with
      | .BEGINNER => design_for_beginner intent capability motivation_tone memory
      | .INTERMEDIATE => design_for_intermediate intent capability motivation_tone memory
      | .ADVANCED => design_for_advanced intent capability motivation_tone memory
    let memory' :=
      match memory with
      | some m => some
          { m with
            interaction_count := m.interaction_count + 1
            capability_trend := m.capability_trend ++ [capability.score]
            request_history := m.request_history ++ [intent.surface_request]
            last_interaction := some now }
      | none => none
    (response, memory')

end GrowthResponseDesigner

-- ═══════════════════════════════════════════════════════════════
-- PART 6: THE CORE SYSTEM (MVG)
-- ═══════════════════════════════════════════════════════════════

/-- The intent-analysis slice of the result metadata. -/
structure IntentMeta where
  surface : Str
  deep_need : Str
  motivation : Str
  growth_opportunity : Str
deriving DecidableEq, Repr

/-- The capability-assessment slice of the result metadata. -/
structure CapabilityMeta where
  level : Str
  score : Int
  trend : Str
  strengths : List Str
  weaknesses : List Str
deriving DecidableEq, Repr

/-- The ethical-evaluation slice of the result metadata. -/
structure EthicalMeta where
  should_proceed : Bool
  concerns : List Str
deriving DecidableEq, Repr

/-- The `metadata` mapping of the result of `process_request`. -/
structure PRMetadata where
  user_id : Str
  interaction_number : Nat
  intent_analysis : IntentMeta
  capability_assessment : CapabilityMeta
  ethical_evaluation : EthicalMeta
  expected_outcome : Str
  independence_impact : Str
deriving DecidableEq, Repr

/-- The structured result of `process_request`. -/
structure PRResult where
  response : Str
  reasoning_log : Str
  metadata : PRMetadata
deriving DecidableEq, Repr

/-- `self.version` of `MVG.__init__`. -/
def version : Str := lit "2.0"

/-- `self.covenant_version` of `MVG.__init__`. -/
def covenant_version : Str := lit "Universal Covenant v1.0 + ML Enhancement"

/-- ASCII uppering of one character (Python `str.upper()` on the
level labels, which are ASCII). -/
def asciiUpper (c : Char) : Char :=
  if 'a' ≤ c ∧ c ≤ 'z' then Char.ofNat (c.toNat - 32) else c

/-- Model of Python `str.upper()`. -/
def upperStr (s : Str) : Str := s.map asciiUpper

/-- Python `str(bool)`. -/
def boolToStr (b : Bool) : Str := if b then lit "True" else lit "False"

/-- The `═`-rule of the reasoning log (47 characters). -/
def boxLine : Str := List.replicate 47 '═'

/-- `MVG._generate_complete_log`. -/
def generate_complete_log (intent : Intent) (capability : CapabilityAssessment)
    (ethical_verdict : EthicalVerdict) (growth_response : GrowthResponse) : Str :=
  stripStr (lit "\n"
    ++ boxLine ++ lit "\nMVG REASONING LOG v" ++ version
    ++ lit "\nFollowing: " ++ covenant_version ++ lit "\n" ++ boxLine
    ++ lit "\n\n[STEP 1: INTENT ANALYSIS]\nSurface Request: " ++ intent.surface_request
    ++ lit "\nDeep Need: " ++ intent.deep_need
    ++ lit "\nMotivation: " ++ intent.underlying_motivation
    ++ lit "\nEthical Flags: "
    ++ (if intent.ethical_flags ≠ [] then joinSep (lit ", ") intent.ethical_flags else lit "None")
    ++ lit "\nGrowth Opportunity: " ++ intent.growth_opportunity
    ++ lit "\n\n[STEP 2: CAPABILITY ASSESSMENT]\nLevel: " ++ upperStr capability.level.value
    ++ lit "\nScore: " ++ intToStr capability.score ++ lit "/100"
    ++ lit "\nStrengths: " ++ joinSep (lit ", ") capability.strengths
    ++ lit "\nWeaknesses: " ++ joinSep (lit ", ") capability.weaknesses
    ++ lit "\nEvidence: " ++ capability.evidence
    ++ lit "\n\n[STEP 3: ETHICAL EVALUATION]\nShould Proceed: "
    ++ boolToStr ethical_verdict.should_proceed
    ++ lit "\nConcerns: "
    ++ (if ethical_verdict.concerns ≠ [] then joinSep (lit ", ") ethical_verdict.concerns else lit "None")
    ++ lit "\n\n[STEP 4: RESPONSE DESIGN]\nApproach: " ++ capability.level.value
    ++ lit " level response\nCapability Addressed: " ++ growth_response.capability_addressed
    ++ lit "\nExpected Outcome: " ++ growth_response.expected_outcome
    ++ lit "\nIndependence Impact: " ++ growth_response.independence_score_impact
    ++ lit "\n\n[FINAL REASONING]\n" ++ growth_response.reasoning_log
    ++ lit "\n" ++ boxLine ++ lit "\n")

/-- The `trend` field of the result metadata:
`"improving" if len(t) > 1 and t[-1] > t[-2] else "stable"`,
computed on the memory as it stands after the Response Designer. -/
def trendLabel (t : List Int) : Str :=
  if t.length > 1 && t.getLastD 0 > t.dropLast.getLastD 0 then lit "improving"
  else lit "stable"

/-- `MVG.process_request`, for the memory of the requesting user.
The in-place mutations of the user's `UserMemory` are modelled by
returning the updated memory next to the structured result;
`datetime.now()` is modelled by the `now` argument (both timestamps
taken during one call coincide). -/
def process_request_user (user_query : Str) (user_id : Str) (memory : UserMemory)
    (now : Nat) : PRResult × UserMemory :=
  let intent := IntentAnalyzer.analyze user_query (some memory)
  let capability := CapabilityAssessor.assess user_query (some memory)
  let ethical_verdict := EthicalGuardian.evaluate intent (some memory)
  let (growth_response, memory₁) :=
    GrowthResponseDesigner.create intent capability ethical_verdict (some memory) now
  let memory₁ := match memory₁ with
    | some m => m
    | none => memory
  let memory₂ :=
    { memory₁ with
      conversation_context := memory₁.conversation_context ++
        [{ query := user_query
           response := growth_response.response_text
           capability_level := capability.level.value
           capability_score := capability.score
           timestamp := now }] }
  ({ response := growth_response.response_text
     reasoning_log := generate_complete_log intent capability ethical_verdict growth_response
     metadata :=
       { user_id := user_id
         interaction_number := memory₂.interaction_count + 1
         intent_analysis :=
           { surface := intent.surface_request
             deep_need := intent.deep_need
             motivation := intent.underlying_motivation
             growth_opportunity := intent.growth_opportunity }
         capability_assessment :=
           { level := capability.level.value
             score := capability.score
             trend := trendLabel memory₂.capability_trend
             strengths := capability.strengths
             weaknesses := capability.weaknesses }
         ethical_evaluation :=
           { should_proceed := ethical_verdict.should_proceed
             concerns := ethical_verdict.concerns }
         expected_outcome := growth_response.expected_outcome
         independence_impact := growth_response.independence_score_impact } },
   memory₂)

/-- The orchestrator's `self.user_memories` dict: user id → memory. -/
abbrev MemoryTable := List (Str × UserMemory)

/-- `MVG.get_or_create_user_memory`, split into the lookup half. -/
def lookupMemory (table : MemoryTable) (user_id : Str) : Option UserMemory :=
  match table with
  | [] => none
  | (uid, m) :: rest => if uid = user_id then some m else lookupMemory rest user_id

/-- Store a (possibly new) user's memory back into the table. -/
def storeMemory (table : MemoryTable) (user_id : Str) (m : UserMemory) : MemoryTable :=
  match table with
  | [] => [(user_id, m)]
  | (uid, m') :: rest =>
    if uid = user_id then (uid, m) :: rest
    else (uid, m') :: storeMemory rest user_id m

/-- `MVG.process_request` at the table level:
`get_or_create_user_memory`, then the per-user pipeline, then the
mutated memory lives in the table. -/
def process_request (user_query : Str) (user_id : Str) (table : MemoryTable)
    (now : Nat) : PRResult × MemoryTable :=
  let memory := (lookupMemory table user_id).getD (freshMemory user_id)
  let (result, memory') := process_request_user user_query user_id memory now
  (result, storeMemory table user_id memory')

-- ═══════════════════════════════════════════════════════════════
-- RUNS: iterated calls for one user
-- ═══════════════════════════════════════════════════════════════

/-- The memory after one `process_request` call for its user. -/
def stepMem (q : Str × Nat) (m : UserMemory) : UserMemory :=
  (process_request_user q.1 m.user_id m q.2).2

/-- Is the call blocked (the Ethical Guardian refuses to proceed)? -/
def blockedOn (q : Str) (m : UserMemory) : Bool :=
  !(EthicalGuardian.evaluate (IntentAnalyzer.analyze q (some m)) (some m)).should_proceed

/-- The user's memory after a sequence of `process_request` calls
(each a query paired with its clock value). -/
def runFrom (m : UserMemory) : List (Str × Nat) → UserMemory
  | [] => m
  | q :: qs => runFrom (stepMem q m) qs

/-- Every call of the sequence proceeds (is non-blocked) at the
memory state it actually sees. -/
def allProceed (m : UserMemory) : List (Str × Nat) → Bool
  | [] => true
  | q :: qs => !blockedOn q.1 m && allProceed (stepMem q m) qs

/-- The number of non-blocked calls in a sequence, evaluated along
the run. -/
def countProceeds (m : UserMemory) : List (Str × Nat) → Nat
  | [] => 0
  | q :: qs => (if blockedOn q.1 m then 0 else 1) + countProceeds (stepMem q m) qs

/-- The conversation-context record appended by `process_request`
for query `q` at clock `n` against memory `m`. -/
def stepEntry (q : Str) (n : Nat) (m : UserMemory) : ConversationEntry :=
  { query := q
    response := (GrowthResponseDesigner.create (IntentAnalyzer.analyze q (some m))
        (CapabilityAssessor.assess q (some m))
        (EthicalGuardian.evaluate (IntentAnalyzer.analyze q (some m)) (some m))
        (some m) n).1.response_text
    capability_level := (CapabilityAssessor.assess q (some m)).level.value
    capability_score := (CapabilityAssessor.assess q (some m)).score
    timestamp := n }

/-- The six labels produced by the six pattern branches of
`_extract_surface_request` (everything except the no-match
fallback). -/
def patternLabels : List Str :=
  [lit "Shortcut-seeking complete solution",
   lit "Request for complete solution",
   lit "Collaborative learning request",
   lit "Verification/validation request",
   lit "Advanced exploration request",
   lit "Request for understanding/learning"]

/-- All seven possible outputs of `_extract_surface_request`: the six
pattern-branch labels plus the "General inquiry" fallback. -/
def surfaceLabels : List Str := patternLabels ++ [lit "General inquiry"]

-- ═══════════════════════════════════════════════════════════════
-- CONCRETE INPUTS (used by witnesses and counterexamples)
-- ═══════════════════════════════════════════════════════════════

/-- The first demo query of `demo_mvg_enhanced` (end-to-end example 1). -/
def demoQuery1 : Str :=
  lit "Write my essay about climate change. It\x27s due tomorrow and I haven\x27t started."

/-- An intent carrying only the dependency flag. -/
def depOnlyIntent : Intent :=
  { surface_request := lit "Request for complete solution"
    deep_need := lit "Understanding the material deeply"
    underlying_motivation := lit "Time pressure / Procrastination"
    ethical_flags := [lit "potential_dependency_creation"]
    growth_opportunity := lit "Transform complete solution request into guided learning" }

/-- An intent carrying only the harm flag (a blocked request). -/
def harmIntent : Intent :=
  { surface_request := lit "General inquiry"
    deep_need := lit "Knowledge or skill development"
    underlying_motivation := lit "Desire for growth and improvement"
    ethical_flags := [lit "potential_harm"]
    growth_opportunity := lit "Develop problem-solving capability" }

/-- An arbitrary capability assessment for designer witnesses. -/
def someAssessment : CapabilityAssessment :=
  { level := .BEGINNER
    score := 20
    strengths := []
    weaknesses := [lit "Needs foundational knowledge and practice"]
    evidence := lit "n/a" }

/-- A query matching both the direct-solution and the lazy-seeking
patterns. -/
def shortcutQuery : Str := lit "just tell me and write my essay"

/-- A memory whose capability trend improves (for the trajectory
witness). -/
def improvingMemory : UserMemory :=
  { user_id := lit "u", capability_trend := [0, 23] }

/-- An innocuous query (matches no blocking pattern). -/
def helloQuery : Str := lit "hello there"

/-- A memory whose capability trend declines. -/
def decliningMemory : UserMemory :=
  { user_id := lit "u", capability_trend := [50, 20] }

/-- A memory with a single recorded score. -/
def singletonMemory : UserMemory :=
  { user_id := lit "u", capability_trend := [50] }

/-- A query containing a harm-pattern word (a blocked request). -/
def destroyQuery : Str := lit "how to destroy everything"

-- ═══════════════════════════════════════════════════════════════
-- HELPER LEMMAS
-- ═══════════════════════════════════════════════════════════════

theorem clamp_nonneg (k x : Int) : 0 ≤ max 0 (min k x) := le_max_left 0 _

theorem clamp_le (k x : Int) (hk : 0 ≤ k) : max 0 (min k x) ≤ k :=
  max_le hk (min_le_left k x)

theorem reasoning_quality_bounds (q : Str) :
    0 ≤ CapabilityAssessor.assess_reasoning_quality q ∧
      CapabilityAssessor.assess_reasoning_quality q ≤ 30 := by
  unfold CapabilityAssessor.assess_reasoning_quality
  exact ⟨clamp_nonneg _ _, clamp_le _ _ (by norm_num)⟩

theorem self_awareness_bounds (q : Str) :
    0 ≤ CapabilityAssessor.assess_self_awareness q ∧
      CapabilityAssessor.assess_self_awareness q ≤ 25 := by
  unfold CapabilityAssessor.assess_self_awareness
  exact ⟨clamp_nonneg _ _, clamp_le _ _ (by norm_num)⟩

theorem effort_shown_bounds (q : Str) :
    0 ≤ CapabilityAssessor.assess_effort_shown q ∧
      CapabilityAssessor.assess_effort_shown q ≤ 25 := by
  unfold CapabilityAssessor.assess_effort_shown
  exact ⟨clamp_nonneg _ _, clamp_le _ _ (by norm_num)⟩

theorem ite_traj_bounds (x y : Int) :
    0 ≤ (if y > x then 10 + min 10 ((y - x) / 5) else if y < x then max 0 (10 - 5) else (10:Int))
    ∧ (if y > x then 10 + min 10 ((y - x) / 5) else if y < x then max 0 (10 - 5) else (10:Int)) ≤ 20 := by
  split_ifs with h1 h2
  · have hd : (0:Int) ≤ (y - x) / 5 := Int.ediv_nonneg (by omega) (by norm_num)
    have hmin1 : (0:Int) ≤ min 10 ((y - x) / 5) := le_min (by norm_num) hd
    have hmin2 : min 10 ((y - x) / 5) ≤ 10 := min_le_left _ _
    constructor <;> omega
  · norm_num
  · norm_num

theorem traj_some_def (mm : UserMemory) :
    CapabilityAssessor.analyze_learning_trajectory (some mm) =
      (match lastN 5 mm.capability_trend with
       | [] => 10
       | [_] => 10
       | a :: b :: t =>
         let l := (b :: t).getLastD a
         if l > a then 10 + min 10 ((l - a) / 5)
         else if l < a then max 0 (10 - 5) else 10) := rfl

theorem trajectory_bounds (m : Option UserMemory) :
    0 ≤ CapabilityAssessor.analyze_learning_trajectory m ∧
      CapabilityAssessor.analyze_learning_trajectory m ≤ 20 := by
  rcases m with _ | mm
  · exact ⟨by decide, by decide⟩
  · rw [traj_some_def]
    rcases h : lastN 5 mm.capability_trend with _ | ⟨a, _ | ⟨b, t⟩⟩
    · exact ⟨by decide, by decide⟩
    · constructor
      · show (0:Int) ≤ 10
        norm_num
      · show (10:Int) ≤ 20
        norm_num
    · exact ite_traj_bounds a ((b :: t).getLastD a)

theorem evaluate_should_proceed_def (intent : Intent) (memory : Option UserMemory) :
    (EthicalGuardian.evaluate intent memory).should_proceed =
      !(EthicalGuardian.check_harm intent || EthicalGuardian.check_manipulation intent
        || EthicalGuardian.check_dignity intent || EthicalGuardian.check_bias intent) := rfl

theorem evaluate_creates_dependency_def (intent : Intent) (memory : Option UserMemory) :
    (EthicalGuardian.evaluate intent memory).creates_dependency =
      EthicalGuardian.check_dependency intent memory := rfl

theorem assess_level_def (q : Str) (m : Option UserMemory) :
    (CapabilityAssessor.assess q m).level =
      CapabilityAssessor.levelOf (CapabilityAssessor.assess q m).score := rfl

theorem assess_score_def (q : Str) (m : Option UserMemory) :
    (CapabilityAssessor.assess q m).score =
      CapabilityAssessor.assess_reasoning_quality q
        + CapabilityAssessor.assess_self_awareness q
        + CapabilityAssessor.assess_effort_shown q
        + CapabilityAssessor.analyze_learning_trajectory m := rfl

-- ═══════════════════════════════════════════════════════════════
-- CLAIM THEOREMS
-- ═══════════════════════════════════════════════════════════════

/-- **C1.** For every `Intent` and optional memory,
`EthicalGuardian.evaluate` returns `should_proceed = false` iff at
least one of the harm, manipulation, dignity or bias checks is true;
a dependency finding alone (`creates_dependency` true while those
four checks are all false) never makes `should_proceed` false. -/
theorem evaluate_should_proceed_iff_red_flags (intent : Intent) (memory : Option UserMemory) :
    ((EthicalGuardian.evaluate intent memory).should_proceed = false ↔
      (EthicalGuardian.check_harm intent || EthicalGuardian.check_manipulation intent
        || EthicalGuardian.check_dignity intent || EthicalGuardian.check_bias intent) = true)
    ∧ ((EthicalGuardian.evaluate intent memory).creates_dependency = true →
        EthicalGuardian.check_harm intent = false →
        EthicalGuardian.check_manipulation intent = false →
        EthicalGuardian.check_dignity intent = false →
        EthicalGuardian.check_bias intent = false →
        (EthicalGuardian.evaluate intent memory).should_proceed = true) := by
  constructor
  · rw [evaluate_should_proceed_def]
    cases (EthicalGuardian.check_harm intent || EthicalGuardian.check_manipulation intent
        || EthicalGuardian.check_dignity intent || EthicalGuardian.check_bias intent) <;> simp
  · intro _ h1 h2 h3 h4
    rw [evaluate_should_proceed_def, h1, h2, h3, h4]
    rfl

/-- Witness for C1: an intent whose only flag is
`potential_dependency_creation` yields `creates_dependency = true`
yet `should_proceed = true`. -/
theorem evaluate_should_proceed_iff_red_flags_witness :
    (EthicalGuardian.evaluate depOnlyIntent none).creates_dependency = true ∧
      (EthicalGuardian.evaluate depOnlyIntent none).should_proceed = true :=
  ⟨by decide,
   (evaluate_should_proceed_iff_red_flags depOnlyIntent none).2
     (by decide) (by decide) (by decide) (by decide) (by decide)⟩

/-- **C2.** For every query and optional memory, the assessed level
is beginner iff the total score is `< 30`, intermediate iff it is in
`[30, 70)`, advanced iff it is `≥ 70`; and the level mapping sends
the boundary scores 29, 30, 69, 70 to beginner, intermediate,
intermediate and advanced respectively. -/
theorem assess_level_thresholds (q : Str) (m : Option UserMemory) :
    ((CapabilityAssessor.assess q m).level = CapabilityLevel.BEGINNER ↔
      (CapabilityAssessor.assess q m).score < 30)
    ∧ ((CapabilityAssessor.assess q m).level = CapabilityLevel.INTERMEDIATE ↔
        30 ≤ (CapabilityAssessor.assess q m).score ∧ (CapabilityAssessor.assess q m).score < 70)
    ∧ ((CapabilityAssessor.assess q m).level = CapabilityLevel.ADVANCED ↔
        70 ≤ (CapabilityAssessor.assess q m).score)
    ∧ CapabilityAssessor.levelOf 29 = CapabilityLevel.BEGINNER
    ∧ CapabilityAssessor.levelOf 30 = CapabilityLevel.INTERMEDIATE
    ∧ CapabilityAssessor.levelOf 69 = CapabilityLevel.INTERMEDIATE
    ∧ CapabilityAssessor.levelOf 70 = CapabilityLevel.ADVANCED := by
  refine ⟨?_, ?_, ?_, by decide, by decide, by decide, by decide⟩ <;>
    · rw [assess_level_def]
      generalize (CapabilityAssessor.assess q m).score = s
      unfold CapabilityAssessor.levelOf
      split_ifs <;> simp_all <;> omega

/-- **C3.** For every query and optional memory, the overall score is
the plain sum of the four sub-scores, each sub-score lies in its
documented subrange (reasoning 0-30, self-awareness 0-25, effort
0-25, trajectory 0-20), and hence the overall score lies in
`[0, 100]`. -/
theorem assess_score_sum_of_clamped (q : Str) (m : Option UserMemory) :
    (CapabilityAssessor.assess q m).score =
      CapabilityAssessor.assess_reasoning_quality q
        + CapabilityAssessor.assess_self_awareness q
        + CapabilityAssessor.assess_effort_shown q
        + CapabilityAssessor.analyze_learning_trajectory m
    ∧ (0 ≤ CapabilityAssessor.assess_reasoning_quality q ∧
        CapabilityAssessor.assess_reasoning_quality q ≤ 30)
    ∧ (0 ≤ CapabilityAssessor.assess_self_awareness q ∧
        CapabilityAssessor.assess_self_awareness q ≤ 25)
    ∧ (0 ≤ CapabilityAssessor.assess_effort_shown q ∧
        CapabilityAssessor.assess_effort_shown q ≤ 25)
    ∧ (0 ≤ CapabilityAssessor.analyze_learning_trajectory m ∧
        CapabilityAssessor.analyze_learning_trajectory m ≤ 20)
    ∧ (0 ≤ (CapabilityAssessor.assess q m).score ∧
        (CapabilityAssessor.assess q m).score ≤ 100) := by
  have h1 := reasoning_quality_bounds q
  have h2 := self_awareness_bounds q
  have h3 := effort_shown_bounds q
  have h4 := trajectory_bounds m
  have hs := assess_score_def q m
  exact ⟨hs, h1, h2, h3, h4, by rw [hs]; constructor <;> omega⟩

/-- **C5.** For every query whose lowered text matches both the
direct-solution and the lazy-seeking patterns, `analyze` returns
surface request "Shortcut-seeking complete solution" and an ethical
flag list containing `potential_dependency_creation`; matching the
direct-solution pattern but not the lazy-seeking one yields
"Request for complete solution". -/
theorem surface_shortcut_classification (q : Str) (m : Option UserMemory)
    (hd : IntentAnalyzer.matchDirectSolution (lowerStr q) = true) :
    (IntentAnalyzer.matchLazySeeking (lowerStr q) = true →
      (IntentAnalyzer.analyze q m).surface_request = lit "Shortcut-seeking complete solution"
      ∧ lit "potential_dependency_creation" ∈ (IntentAnalyzer.analyze q m).ethical_flags)
    ∧ (IntentAnalyzer.matchLazySeeking (lowerStr q) = false →
      (IntentAnalyzer.analyze q m).surface_request = lit "Request for complete solution") := by
  constructor
  · intro hl
    have h1 : IntentAnalyzer.extract_surface_request q =
        lit "Shortcut-seeking complete solution" := by
      unfold IntentAnalyzer.extract_surface_request
      simp [hd, hl]
    refine ⟨h1, ?_⟩
    show lit "potential_dependency_creation" ∈
      IntentAnalyzer.detect_ethical_flags q (IntentAnalyzer.extract_surface_request q) m
    rw [h1]
    unfold IntentAnalyzer.detect_ethical_flags
    rw [if_pos (by decide)]
    simp
  · intro hl
    show IntentAnalyzer.extract_surface_request q = _
    unfold IntentAnalyzer.extract_surface_request
    simp [hd, hl]

/-- Witness for C5: "just tell me and write my essay" matches both
patterns and classifies as shortcut-seeking with the dependency
flag; the first demo query matches only the direct-solution pattern
and classifies as a plain complete-solution request. -/
theorem surface_shortcut_classification_witness :
    (IntentAnalyzer.analyze shortcutQuery none).surface_request =
      lit "Shortcut-seeking complete solution"
    ∧ lit "potential_dependency_creation" ∈ (IntentAnalyzer.analyze shortcutQuery none).ethical_flags
    ∧ (IntentAnalyzer.analyze demoQuery1 none).surface_request =
      lit "Request for complete solution" :=
  ⟨((surface_shortcut_classification shortcutQuery none (by decide)).1 (by decide)).1,
   ((surface_shortcut_classification shortcutQuery none (by decide)).1 (by decide)).2,
   (surface_shortcut_classification demoQuery1 none (by decide)).2 (by decide)⟩

theorem traj_cons_def (mm : UserMemory) (a b : Int) (t : List Int)
    (h : lastN 5 mm.capability_trend = a :: b :: t) :
    CapabilityAssessor.analyze_learning_trajectory (some mm) =
      (if (b :: t).getLastD a > a then 10 + min 10 (((b :: t).getLastD a - a) / 5)
       else if (b :: t).getLastD a < a then max 0 (10 - 5) else 10) := by
  rw [traj_some_def, h]

/-- **C8.** The learning-trajectory sub-score is 10 with no memory,
an empty trend or a single recorded score; with at least two of the
last five scores (earliest `f`, most recent `l`) it is
`10 + min 10 ((l - f) / 5)` when `l > f`, 5 when `l < f`, and 10
when `l = f`; and it always lies in `[0, 20]`. -/
theorem learning_trajectory_spec (m : UserMemory) (f l : Int) :
    CapabilityAssessor.analyze_learning_trajectory none = 10
    ∧ (m.capability_trend = [] → CapabilityAssessor.analyze_learning_trajectory (some m) = 10)
    ∧ (∀ x : Int, m.capability_trend = [x] →
        CapabilityAssessor.analyze_learning_trajectory (some m) = 10)
    ∧ (1 < (lastN 5 m.capability_trend).length →
        (lastN 5 m.capability_trend).head? = some f →
        (lastN 5 m.capability_trend).getLast? = some l →
        ((f < l → CapabilityAssessor.analyze_learning_trajectory (some m) =
            10 + min 10 ((l - f) / 5))
         ∧ (l < f → CapabilityAssessor.analyze_learning_trajectory (some m) = 5)
         ∧ (l = f → CapabilityAssessor.analyze_learning_trajectory (some m) = 10)))
    ∧ (0 ≤ CapabilityAssessor.analyze_learning_trajectory (some m)
        ∧ CapabilityAssessor.analyze_learning_trajectory (some m) ≤ 20) := by
  refine ⟨rfl, ?_, ?_, ?_, trajectory_bounds (some m)⟩
  · intro h
    rw [traj_some_def]
    rw [show lastN 5 m.capability_trend = [] by rw [h]; rfl]
  · intro x h
    rw [traj_some_def]
    rw [show lastN 5 m.capability_trend = [x] by rw [h]; rfl]
  · intro hlen hhead hlast
    rcases hh : lastN 5 m.capability_trend with _ | ⟨a, _ | ⟨b, t⟩⟩
    · rw [hh] at hlen
      simp at hlen
    · rw [hh] at hlen
      simp at hlen
    · rw [hh] at hhead hlast
      have hf : a = f := by simpa using hhead
      have hl2 : (b :: t).getLastD a = l := by
        rw [List.getLastD_eq_getLast?, List.getLast?_cons_cons.symm, hlast]
        rfl
      rw [traj_cons_def m a b t hh, hl2, hf]
      refine ⟨?_, ?_, ?_⟩
      · intro hgt
        rw [if_pos hgt]
      · intro hlt
        rw [if_neg (by omega), if_pos hlt]
        rfl
      · intro heq
        rw [if_neg (by omega), if_neg (by omega)]

/-- Witness for C8: concrete memories exercising the improving,
declining and singleton branches. -/
theorem learning_trajectory_spec_witness :
    CapabilityAssessor.analyze_learning_trajectory (some improvingMemory) =
      10 + min 10 ((23 - 0) / 5)
    ∧ CapabilityAssessor.analyze_learning_trajectory (some decliningMemory) = 5
    ∧ CapabilityAssessor.analyze_learning_trajectory (some singletonMemory) = 10 :=
  ⟨((learning_trajectory_spec improvingMemory 0 23).2.2.2.1
      (by decide) (by decide) (by decide)).1 (by decide),
   ((learning_trajectory_spec decliningMemory 50 20).2.2.2.1
      (by decide) (by decide) (by decide)).2.1 (by decide),
   (learning_trajectory_spec singletonMemory 0 0).2.2.1 50 (by decide)⟩

-- Helper lemmas about the designer and the per-call memory step.

theorem generate_redirect_ne_nil (i : Intent) (c : List Str) :
    EthicalGuardian.generate_redirect i c ≠ [] := by
  unfold EthicalGuardian.generate_redirect
  split_ifs <;> decide

theorem evaluate_redirect_def (intent : Intent) (memory : Option UserMemory) :
    (EthicalGuardian.evaluate intent memory).redirect_suggestion =
      (if !(EthicalGuardian.evaluate intent memory).should_proceed then
        some (EthicalGuardian.generate_redirect intent
          (EthicalGuardian.evaluate intent memory).concerns)
      else none) := rfl

theorem create_blocked_def (intent : Intent) (cap : CapabilityAssessment)
    (v : EthicalVerdict) (mem : Option UserMemory) (now : Nat)
    (h : v.should_proceed = false) :
    GrowthResponseDesigner.create intent cap v mem now =
      (GrowthResponseDesigner.create_redirect_response intent v, mem) := by
  unfold GrowthResponseDesigner.create
  rw [h]
  rfl

theorem create_redirect_text (intent : Intent) (v : EthicalVerdict) (r : Str)
    (hr : v.redirect_suggestion = some r) (hne : r ≠ []) :
    (GrowthResponseDesigner.create_redirect_response intent v).response_text = r := by
  unfold GrowthResponseDesigner.create_redirect_response
  simp [hr, hne]

theorem create_proceed_memory (intent : Intent) (cap : CapabilityAssessment)
    (v : EthicalVerdict) (m : UserMemory) (now : Nat) (h : v.should_proceed = true) :
    (GrowthResponseDesigner.create intent cap v (some m) now).2 =
      some { m with
             interaction_count := m.interaction_count + 1
             capability_trend := m.capability_trend ++ [cap.score]
             request_history := m.request_history ++ [intent.surface_request]
             last_interaction := some now } := by
  unfold GrowthResponseDesigner.create
  rw [h]
  rfl

theorem blockedOn_false_iff (q : Str) (m : UserMemory) :
    blockedOn q m = false ↔
      (EthicalGuardian.evaluate (IntentAnalyzer.analyze q (some m)) (some m)).should_proceed
        = true := by
  unfold blockedOn
  cases (EthicalGuardian.evaluate (IntentAnalyzer.analyze q (some m)) (some m)).should_proceed <;>
    simp

theorem stepMem_def (q : Str) (n : Nat) (m : UserMemory) :
    stepMem (q, n) m = (process_request_user q m.user_id m n).2 := rfl

theorem pru_mem_def (q uid : Str) (m : UserMemory) (now : Nat) :
    (process_request_user q uid m now).2 =
      (let memory₁ :=
        match (GrowthResponseDesigner.create (IntentAnalyzer.analyze q (some m))
            (CapabilityAssessor.assess q (some m))
            (EthicalGuardian.evaluate (IntentAnalyzer.analyze q (some m)) (some m))
            (some m) now).2 with
        | some mm => mm
        | none => m
      { memory₁ with
        conversation_context := memory₁.conversation_context ++ [stepEntry q now m] }) := rfl

theorem stepMem_proceed_eq (q : Str) (n : Nat) (m : UserMemory)
    (h : blockedOn q m = false) :
    stepMem (q, n) m =
      { m with
        interaction_count := m.interaction_count + 1
        capability_trend := m.capability_trend ++ [(CapabilityAssessor.assess q (some m)).score]
        request_history := m.request_history ++
          [(IntentAnalyzer.analyze q (some m)).surface_request]
        last_interaction := some n
        conversation_context := m.conversation_context ++ [stepEntry q n m] } := by
  have hv := (blockedOn_false_iff q m).mp h
  rw [stepMem_def, pru_mem_def, create_proceed_memory _ _ _ _ _ hv]

theorem stepMem_blocked_eq (q : Str) (n : Nat) (m : UserMemory)
    (h : blockedOn q m = true) :
    stepMem (q, n) m =
      { m with conversation_context := m.conversation_context ++ [stepEntry q n m] } := by
  have hv : (EthicalGuardian.evaluate (IntentAnalyzer.analyze q (some m)) (some m)).should_proceed
      = false := by
    unfold blockedOn at h
    simpa using h
  rw [stepMem_def, pru_mem_def, create_blocked_def _ _ _ _ _ hv]

theorem runFrom_counts (qs : List (Str × Nat)) :
    ∀ m : UserMemory, allProceed m qs = true →
      (runFrom m qs).interaction_count = m.interaction_count + qs.length
      ∧ (runFrom m qs).capability_trend.length = m.capability_trend.length + qs.length := by
  induction qs with
  | nil =>
    intro m _
    exact ⟨rfl, rfl⟩
  | cons q qs ih =>
    intro m h
    rw [allProceed, Bool.and_eq_true, Bool.not_eq_true'] at h
    obtain ⟨h1, h2⟩ := h
    obtain ⟨c1, c2⟩ := ih (stepMem q m) h2
    have hs : stepMem q m = stepMem (q.1, q.2) m := rfl
    rw [runFrom]
    constructor
    · rw [c1, hs, stepMem_proceed_eq q.1 q.2 m h1]
      simp
      omega
    · rw [c2, hs, stepMem_proceed_eq q.1 q.2 m h1]
      simp
      omega

theorem runFrom_countProceeds (qs : List (Str × Nat)) :
    ∀ m : UserMemory,
      (runFrom m qs).interaction_count = m.interaction_count + countProceeds m qs := by
  induction qs with
  | nil =>
    intro m
    exact rfl
  | cons q qs ih =>
    intro m
    rw [runFrom, countProceeds, ih (stepMem q m)]
    by_cases hb : blockedOn q.1 m = true
    · rw [if_pos hb, show stepMem q m = stepMem (q.1, q.2) m from rfl,
        stepMem_blocked_eq q.1 q.2 m hb]
      simp
    · rw [if_neg hb, show stepMem q m = stepMem (q.1, q.2) m from rfl,
        stepMem_proceed_eq q.1 q.2 m (by simpa using hb)]
      simp
      omega

theorem pru_number_def (q : Str) (uid : Str) (m : UserMemory) (now : Nat) :
    (process_request_user q uid m now).1.metadata.interaction_number =
      (stepMem (q, now) m).interaction_count + 1 := rfl

/-- **C6.** When the verdict produced by the Ethical Guardian blocks
a request, the Response Designer returns the verdict's redirect text
verbatim as `response_text` and leaves the memory untouched; on that
blocked path `process_request` changes the memory only by appending
one conversation-context record. -/
theorem blocked_redirect_verbatim (intent : Intent) (cap : CapabilityAssessment)
    (m : UserMemory) (now : Nat) (q : Str) (n2 : Nat) :
    ((EthicalGuardian.evaluate intent (some m)).should_proceed = false →
      ∃ r, (EthicalGuardian.evaluate intent (some m)).redirect_suggestion = some r
        ∧ (GrowthResponseDesigner.create intent cap
            (EthicalGuardian.evaluate intent (some m)) (some m) now).1.response_text = r
        ∧ (GrowthResponseDesigner.create intent cap
            (EthicalGuardian.evaluate intent (some m)) (some m) now).2 = some m)
    ∧ (blockedOn q m = true →
        (stepMem (q, n2) m).interaction_count = m.interaction_count
        ∧ (stepMem (q, n2) m).capability_trend = m.capability_trend
        ∧ (stepMem (q, n2) m).request_history = m.request_history
        ∧ (stepMem (q, n2) m).last_interaction = m.last_interaction
        ∧ (stepMem (q, n2) m).conversation_context =
            m.conversation_context ++ [stepEntry q n2 m]) := by
  constructor
  · intro h
    have hr : (EthicalGuardian.evaluate intent (some m)).redirect_suggestion =
        some (EthicalGuardian.generate_redirect intent
          (EthicalGuardian.evaluate intent (some m)).concerns) := by
      rw [evaluate_redirect_def, h]
      rfl
    refine ⟨EthicalGuardian.generate_redirect intent
      (EthicalGuardian.evaluate intent (some m)).concerns, hr, ?_, ?_⟩
    · rw [create_blocked_def _ _ _ _ _ h]
      exact create_redirect_text intent _ _ hr (generate_redirect_ne_nil _ _)
    · rw [create_blocked_def _ _ _ _ _ h]
  · intro h
    rw [stepMem_blocked_eq q n2 m h]
    exact ⟨rfl, rfl, rfl, rfl, rfl⟩

/-- Witness for C6: the harm-flagged intent is blocked; the designer
hands back the memory unchanged, and one blocked `process_request`
call leaves the counters of a fresh memory at zero. -/
theorem blocked_redirect_verbatim_witness :
    (GrowthResponseDesigner.create harmIntent someAssessment
        (EthicalGuardian.evaluate harmIntent (some (freshMemory (lit "u"))))
        (some (freshMemory (lit "u"))) 0).2 = some (freshMemory (lit "u"))
    ∧ (stepMem (destroyQuery, 0) (freshMemory (lit "u"))).interaction_count = 0 := by
  obtain ⟨r, h1, h2, h3⟩ :=
    (blocked_redirect_verbatim harmIntent someAssessment (freshMemory (lit "u")) 0
      destroyQuery 0).1 (by decide)
  exact ⟨h3,
    ((blocked_redirect_verbatim harmIntent someAssessment (freshMemory (lit "u")) 0
      destroyQuery 0).2 (by decide)).1⟩

/-- **C7.** For one user, after `N` non-blocked completed calls to
`process_request` starting from a fresh memory, `interaction_count`
equals `N` and `capability_trend` has length `N`; and every single
call (blocked or not) only ever appends to `request_history` and
`capability_trend` (the old lists stay a prefix). -/
theorem memory_append_only (qs : List (Str × Nat)) (uid : Str) (m : UserMemory)
    (q : Str) (n : Nat) :
    (allProceed (freshMemory uid) qs = true →
      (runFrom (freshMemory uid) qs).interaction_count = qs.length
      ∧ (runFrom (freshMemory uid) qs).capability_trend.length = qs.length)
    ∧ (m.request_history <+: (stepMem (q, n) m).request_history
       ∧ m.capability_trend <+: (stepMem (q, n) m).capability_trend) := by
  constructor
  · intro h
    have := runFrom_counts qs (freshMemory uid) h
    simpa [freshMemory] using this
  · by_cases hb : blockedOn q m = true
    · rw [stepMem_blocked_eq q n m hb]
      exact ⟨List.prefix_refl _, List.prefix_refl _⟩
    · rw [stepMem_proceed_eq q n m (by simpa using hb)]
      exact ⟨List.prefix_append _ _, List.prefix_append _ _⟩

/-- Witness for C7: one non-blocked call on a fresh memory yields
count 1 and one trend entry. -/
theorem memory_append_only_witness :
    (runFrom (freshMemory (lit "u")) [(helloQuery, 0)]).interaction_count = 1
    ∧ (runFrom (freshMemory (lit "u")) [(helloQuery, 0)]).capability_trend.length = 1 :=
  (memory_append_only [(helloQuery, 0)] (lit "u") (freshMemory (lit "u"))
    helloQuery 0).1 (by decide)

/-- **C9.** On a non-blocked call the reported
`interaction_number` is the caller's prior `interaction_count` plus
two (the Response Designer increments before the metadata is built),
so the first non-blocked request of a fresh user reports 2 and the
`N`-th reports `N + 1`; on a blocked call it is the prior count
(that is, the number of prior non-blocked calls) plus one. -/
theorem interaction_number_reporting (q : Str) (uid : Str) (m : UserMemory)
    (now : Nat) (qs : List (Str × Nat)) :
    (blockedOn q m = false →
      (process_request_user q uid m now).1.metadata.interaction_number =
        m.interaction_count + 2)
    ∧ (blockedOn q m = true →
      (process_request_user q uid m now).1.metadata.interaction_number =
        m.interaction_count + 1)
    ∧ (runFrom (freshMemory uid) qs).interaction_count =
        countProceeds (freshMemory uid) qs := by
  refine ⟨?_, ?_, ?_⟩
  · intro h
    rw [pru_number_def, stepMem_proceed_eq q now m h]
  · intro h
    rw [pru_number_def, stepMem_blocked_eq q now m h]
  · have := runFrom_countProceeds qs (freshMemory uid)
    simpa [freshMemory] using this

/-- Witness for C9: the first non-blocked request of a fresh user
reports interaction number 2; a first blocked request reports 1. -/
theorem interaction_number_reporting_witness :
    (process_request_user helloQuery (lit "u") (freshMemory (lit "u")) 0).1.metadata.interaction_number = 2
    ∧ (process_request_user destroyQuery (lit "u") (freshMemory (lit "u")) 0).1.metadata.interaction_number = 1 := by
  constructor
  · have := (interaction_number_reporting helloQuery (lit "u") (freshMemory (lit "u")) 0 []).1
      (by decide)
    simpa [freshMemory] using this
  · have := (interaction_number_reporting destroyQuery (lit "u") (freshMemory (lit "u")) 0 []).2.1
      (by decide)
    simpa [freshMemory] using this

-- Helper lemmas for C10: lowering never leaves an ASCII uppercase
-- letter, and reachable request histories hold only surface labels.

theorem toNat_ofNat_valid (n : Nat) (h : n < 55296) : (Char.ofNat n).toNat = n := by
  unfold Char.ofNat
  rw [dif_pos (Or.inl h)]
  show (BitVec.ofNatLt n _).toNat = n
  exact BitVec.toNat_ofNatLt n _

theorem char_le_iff (a b : Char) : a ≤ b ↔ a.toNat ≤ b.toNat := by
  rw [Char.le_def, UInt32.le_def, BitVec.le_def]
  exact Iff.rfl

theorem asciiLower_not_upper (c : Char) :
    (decide ('A' ≤ asciiLower c) && decide (asciiLower c ≤ 'Z')) = false := by
  by_cases h : 'A' ≤ c ∧ c ≤ 'Z'
  · have h90 : c.toNat ≤ 90 := (char_le_iff c 'Z').mp h.2
    have ht : (asciiLower c).toNat = c.toNat + 32 := by
      simp only [asciiLower, if_pos h]
      exact toNat_ofNat_valid _ (by omega)
    have hz : ¬(asciiLower c ≤ 'Z') := by
      rw [char_le_iff, ht]
      have h65 : 65 ≤ c.toNat := (char_le_iff 'A' c).mp h.1
      show ¬(c.toNat + 32 ≤ 90)
      omega
    simp [hz]
  · simp only [asciiLower, if_neg h]
    rcases not_and_or.mp h with h' | h' <;> simp [h']

theorem lowerStr_no_upper (s : Str) : hasUpper (lowerStr s) = false := by
  unfold hasUpper lowerStr
  rw [List.any_map, List.any_eq_false]
  intro c _
  simp only [Function.comp]
  simp [asciiLower_not_upper c]

theorem surface_mem_labels (q : Str) :
    IntentAnalyzer.extract_surface_request q ∈ surfaceLabels := by
  simp only [IntentAnalyzer.extract_surface_request]
  split_ifs <;> decide

theorem runFrom_history_labels (qs : List (Str × Nat)) :
    ∀ m : UserMemory, (∀ r ∈ m.request_history, r ∈ surfaceLabels) →
      ∀ r ∈ (runFrom m qs).request_history, r ∈ surfaceLabels := by
  induction qs with
  | nil =>
    intro m h
    exact h
  | cons q qs ih =>
    intro m h
    rw [runFrom]
    apply ih
    by_cases hb : blockedOn q.1 m = true
    · rw [show stepMem q m = stepMem (q.1, q.2) m from rfl, stepMem_blocked_eq q.1 q.2 m hb]
      exact h
    · rw [show stepMem q m = stepMem (q.1, q.2) m from rfl,
        stepMem_proceed_eq q.1 q.2 m (by simpa using hb)]
      intro r hr
      simp only [List.mem_append, List.mem_singleton] at hr
      rcases hr with hr | hr
      · exact h r hr
      · rw [hr]
        exact surface_mem_labels q.1

theorem repetitive_flag_not_mem (q surface : Str) (m : UserMemory)
    (h : ∀ r ∈ m.request_history, hasUpper r = true) :
    lit "repetitive_dependency" ∉ IntentAnalyzer.detect_ethical_flags q surface (some m) := by
  unfold IntentAnalyzer.detect_ethical_flags
  intro hmem
  simp only [List.mem_append] at hmem
  rcases hmem with ((((h1 | h1) | h1) | h1) | h1) | h1
  · revert h1
    split_ifs <;> intro h1 <;> exact absurd h1 (by decide)
  · revert h1
    split_ifs <;> intro h1 <;> exact absurd h1 (by decide)
  · revert h1
    split_ifs <;> intro h1 <;> exact absurd h1 (by decide)
  · revert h1
    split_ifs <;> intro h1 <;> exact absurd h1 (by decide)
  · revert h1
    split_ifs <;> intro h1 <;> exact absurd h1 (by decide)
  · revert h1
    split_ifs with hc <;> intro h1
    · have hc2 : (decide (m.request_history.length > 0)
          && (lastN 3 m.request_history).contains (lowerStr q)) = true := hc
      rw [Bool.and_eq_true] at hc2
      have hql : lowerStr q ∈ lastN 3 m.request_history := by
        simpa using hc2.2
      have hql2 : lowerStr q ∈ m.request_history := List.drop_subset _ _ hql
      have hup := h _ hql2
      rw [lowerStr_no_upper q] at hup
      exact absurd hup (by decide)
    · exact absurd h1 (by decide)

/-- **C10 (counterexample).** A reachable request history can hold
the fallback label "General inquiry", which is not one of the six
pattern-branch surface labels: the history is not confined to six
labels (there are seven reachable ones). -/
theorem six_labels_counterexample :
    (runFrom (freshMemory (lit "u")) [(helloQuery, 0)]).request_history =
      [lit "General inquiry"]
    ∧ lit "General inquiry" ∉ patternLabels := by
  constructor
  · decide
  · decide

/-- **C10 (amended).** Every memory reachable through
`process_request` calls has a request history containing only the
seven possible surface-classification labels (the six pattern-branch
labels plus the "General inquiry" fallback); each of those labels
contains an uppercase letter while a lower-cased query never does,
so the "repetitive_dependency" flag - and hence the Ethical
Guardian's dependency escalation through it - never fires on a
reachable flow. -/
theorem repetitive_dependency_unreachable (qs : List (Str × Nat)) (uid : Str) (q : Str) :
    (∀ r ∈ (runFrom (freshMemory uid) qs).request_history, r ∈ surfaceLabels)
    ∧ (∀ r ∈ surfaceLabels, hasUpper r = true)
    ∧ hasUpper (lowerStr q) = false
    ∧ lit "repetitive_dependency" ∉
        (IntentAnalyzer.analyze q (some (runFrom (freshMemory uid) qs))).ethical_flags := by
  have hlab := runFrom_history_labels qs (freshMemory uid)
    (by intro r hr; exact absurd hr (List.not_mem_nil r))
  refine ⟨hlab, by decide, lowerStr_no_upper q, ?_⟩
  have hAll : ∀ r ∈ surfaceLabels, hasUpper r = true := by decide
  have hup : ∀ r ∈ (runFrom (freshMemory uid) qs).request_history, hasUpper r = true :=
    fun r hr => hAll r (hlab r hr)
  show lit "repetitive_dependency" ∉
    IntentAnalyzer.detect_ethical_flags q (IntentAnalyzer.extract_surface_request q)
      (some (runFrom (freshMemory uid) qs))
  exact repetitive_flag_not_mem q _ _ hup

/-- Witness for C10: after one real call, the repetitive-dependency
flag is absent for the demo query, and the recorded label is among
the seven surface labels. -/
theorem repetitive_dependency_unreachable_witness :
    lit "repetitive_dependency" ∉
      (IntentAnalyzer.analyze demoQuery1
        (some (runFrom (freshMemory (lit "u")) [(helloQuery, 0)]))).ethical_flags
    ∧ lit "General inquiry" ∈ surfaceLabels :=
  ⟨(repetitive_dependency_unreachable [(helloQuery, 0)] (lit "u") demoQuery1).2.2.2,
   (repetitive_dependency_unreachable [(helloQuery, 0)] (lit "u") demoQuery1).1
     (lit "General inquiry") (by decide)⟩

/-- **C4 (counterexample).** For the demo query processed on a fresh
memory, the capability score is 10 + 10 + 8 + 10 = 38, so the
assessed level is intermediate, not beginner as the claim states. -/
theorem demo_query_beginner_counterexample :
    (CapabilityAssessor.assess demoQuery1 (some (freshMemory (lit "student_001")))).score = 38
    ∧ (CapabilityAssessor.assess demoQuery1 (some (freshMemory (lit "student_001")))).level =
      CapabilityLevel.INTERMEDIATE
    ∧ (CapabilityAssessor.assess demoQuery1 (some (freshMemory (lit "student_001")))).level ≠
      CapabilityLevel.BEGINNER := by
  refine ⟨?_, ?_, ?_⟩ <;> decide

/-- **C4 (amended).** End-to-end on the demo query for an unseen
user: surface "Request for complete solution" (non-shortcut),
motivation "Time pressure / Procrastination", capability level
intermediate with score 38, `should_proceed` true, and a response
opening with the intermediate genuine-fallback template (the
"urgency" tone has no template entry) followed by the four-part
strategic-thinking plan. -/
theorem demo_query_end_to_end_amended :
    (process_request demoQuery1 (lit "student_001") [] 0).1.metadata.intent_analysis.surface =
      lit "Request for complete solution"
    ∧ (process_request demoQuery1 (lit "student_001") [] 0).1.metadata.intent_analysis.motivation =
      lit "Time pressure / Procrastination"
    ∧ (process_request demoQuery1 (lit "student_001") [] 0).1.metadata.capability_assessment.level =
      lit "intermediate"
    ∧ (process_request demoQuery1 (lit "student_001") [] 0).1.metadata.capability_assessment.score = 38
    ∧ (process_request demoQuery1 (lit "student_001") [] 0).1.metadata.ethical_evaluation.should_proceed
      = true
    ∧ GrowthResponseDesigner.extract_motivation_tone (lit "Time pressure / Procrastination") =
      lit "urgency"
    ∧ (GrowthResponseDesigner.intermediateTemplate (lit "urgency")).isPrefixOf
        (process_request demoQuery1 (lit "student_001") [] 0).1.response = true
    ∧ GrowthResponseDesigner.intermediateTemplate (lit "urgency") =
      GrowthResponseDesigner.intermediateTemplate (lit "genuine")
    ∧ containsSub (lit "**Let\x27s think strategically:**")
        ((process_request demoQuery1 (lit "student_001") [] 0).1.response) = true := by
  refine ⟨?_, ?_, ?_, ?_, ?_, ?_, ?_, ?_, ?_⟩ <;> decide

end MVG
